import Mathlib

/- Verification of the paginated-iterator merge engine of
`cinder/volume/drivers/netapp/dataontap/client/client_cmode.py`:
a shallow embedding of `send_iter_request` (lines 91-135) and
`_get_record_count` (lines 81-86), together with theorems settling
the claims about its behaviour. -/

set_option autoImplicit false

namespace NetAppIter

/-- A value stored in a Python mapping of API arguments: the code stores
strings (the continuation tag) and integers (the page-size limit). -/
inductive Val : Type
  | str (s : String)
  | int (n : Int)
deriving DecidableEq, Repr

/-- A Python dict modelled as an insertion-ordered association list. -/
abbrev Dict := List (String × Val)

/-- Python dict assignment `d[k] = v`: if the key is present its value is
replaced in place (keeping its position), otherwise the pair is appended. -/
def dictSet : Dict → String → Val → Dict
  | [], k, v => [(k, v)]
  | p :: d, k, v => if p.1 = k then (k, v) :: d else p :: dictSet d k v

/-- Python dict lookup `d.get(k)`. -/
def dictGet : Dict → String → Option Val
  | [], _ => none
  | p :: d, k => if p.1 = k then some p.2 else dictGet d k

/-- Strip leading and trailing whitespace from a character list. -/
def stripWs (cs : List Char) : List Char :=
  ((cs.dropWhile Char.isWhitespace).reverse.dropWhile Char.isWhitespace).reverse

/-- Model of Python `int(s)` applied to a string: surrounding whitespace is
stripped, one optional sign is allowed, and then a nonempty run of decimal
digits is required.  `none` models Python raising `ValueError`. -/
def pyInt (s : String) : Option Int :=
  let t := stripWs s.toList
  let neg : Bool := match t with | '-' :: _ => true | _ => false
  let core := match t with
    | '-' :: cs => cs
    | '+' :: cs => cs
    | cs => cs
  if core.length != 0 && core.all Char.isDigit then
    let n : Nat := core.foldl (fun acc c => acc * 10 + (c.toNat - 48)) 0
    some (if neg then -(n : Int) else (n : Int))
  else
    none

/-- The slice of a NetApp API result element that `send_iter_request` reads:
`numRecords` is the text of the `num-records` child (`none` when the child
is absent, in which case `get_child_content` returns Python `None`);
`attributesList` is the `attributes-list` child with its record children
(`none` when `get_child_by_name` returns `None`); `nextTag` is the text of
the `next-tag` child.  Records themselves are opaque, of type `α`. -/
structure Page (α : Type) where
  numRecords : Option String
  attributesList : Option (List α)
  nextTag : Option String
deriving DecidableEq, Repr

/-- The failure kinds a `send_iter_request` call can surface.
`malformedCount` and `missingAttributesList` are the two
`exception.NetAppDriverException` raises (lines 85-86 and 112-114);
`valueError` is an uncaught Python `ValueError` escaping `int()` in
`_get_record_count` (only `TypeError` is caught there); `transport`
is an error raised by the `send_request` collaborator, carried opaquely. -/
inductive IterError : Type
  | malformedCount
  | missingAttributesList
  | valueError
  | transport (code : Nat)
deriving DecidableEq, Repr

/-- Whether an error is an `exception.NetAppDriverException`, the error
class the spec calls the MalformedPage kind. -/
def isNetAppDriverException : IterError → Bool
  | .malformedCount => true
  | .missingAttributesList => true
  | _ => false

/-- Model of `_get_record_count` (lines 81-86): the code runs
`int(get_child_content('num-records'))`.
A missing child gives `int(None)`, a `TypeError`, which is caught and turned
into `NetAppDriverException`; a present but non-numeric text gives a
`ValueError`, which is not caught and propagates as-is. -/
def getRecordCount {α : Type} (p : Page α) : Except IterError Int :=
  match p.numRecords with
  | none => .error .malformedCount
  | some s =>
    match pyInt s with
    | none => .error .valueError
    | some n => .ok n

/-- Whether `_get_record_count` succeeds on this page. -/
def countOk {α : Type} (p : Page α) : Bool :=
  match getRecordCount p with
  | .ok _ => true
  | .error _ => false

/-- The record count `_get_record_count` returns (0 when it fails). -/
def countVal {α : Type} (p : Page α) : Int :=
  match getRecordCount p with
  | .ok n => n
  | .error _ => 0

/-- The items contributed by a page in the merge loop:
`get_child_by_name('attributes-list') or NaElement('none')` followed by
`get_children()` yields the empty list when the child is absent (line 123-124). -/
def itemsOf {α : Type} (p : Page α) : List α :=
  p.attributesList.getD []

/-- The observable outcome of a `send_iter_request` call: a returned result
element, a raised error, or `hung` — the supplied response stream was
exhausted while the loop still wanted another page (the call is still
running after that many round-trips). -/
inductive Outcome (α : Type) : Type
  | ok (r : Page α)
  | err (e : IterError)
  | hung
deriving DecidableEq, Repr

/-- Model of the `while next_tag is not None` loop of `send_iter_request`
(lines 116-135), plus the finalization on loop exit (lines 132-135).
`args` is the local `api_args` (original arguments with the injected
`max-records`); the list of responses supplies, in order, what each further
`send_request` call returns (`Except.error te` models a transport failure).
Returns the argument mappings passed to each `send_request` call, in order,
and the outcome.  On loop exit the first page is returned with its
accumulated `attributes-list`, its `num-records` set to the text of the
summed count, and its `next-tag` set to the empty string. -/
def iterLoop {α : Type} (args : Dict) :
    List (Except Nat (Page α)) → Option String → List α → Int →
    List Dict × Outcome α
  | _, none, items, count =>
    ([], .ok { numRecords := some (toString count),
               attributesList := some items,
               nextTag := some "" })
  | [], some _, _, _ => ([], .hung)
  | r :: rest, some t, items, count =>
    -- next_api_args = copy.deepcopy(api_args); next_api_args['tag'] = next_tag
    let reqArgs := dictSet args "tag" (Val.str t)
    match r with
    | .error te => ([reqArgs], .err (.transport te))
    | .ok page =>
      let newItems := items ++ itemsOf page
      match getRecordCount page with
      | .error e => ([reqArgs], .err e)
      | .ok c =>
        let next := iterLoop args rest page.nextTag newItems (count + c)
        (reqArgs :: next.1, next.2)

/-- Lines 100-135 of `send_iter_request`, after the `max-records` injection:
first fetch, fast path on a falsy `next-tag` (Python `None` or the empty
string), validation of the first page on the multi-page path
(`_get_record_count` first, then the `attributes-list` presence check),
then the merge loop. -/
def sendIterCore {α : Type} (args : Dict) :
    List (Except Nat (Page α)) → List Dict × Outcome α
  | [] => ([args], .hung)
  | (Except.error te) :: _ => ([args], .err (.transport te))
  | (Except.ok first) :: rest =>
    match first.nextTag with
    | none => ([args], .ok first)
    | some t =>
      if t = "" then ([args], .ok first)
      else
        match getRecordCount first with
        | .error e => ([args], .err e)
        | .ok c0 =>
          match first.attributesList with
          | none => ([args], .err .missingAttributesList)
          | some items0 =>
            let next := iterLoop args rest (some t) items0 c0
            (args :: next.1, next.2)

/-- Everything observable about one `send_iter_request` call. -/
structure RunResult (α : Type) where
  /-- The caller's argument mapping as it stands after the call: line 98
  (`api_args['max-records'] = max_page_length`) writes into the mapping the
  caller passed when that mapping is truthy; a falsy (absent or empty)
  mapping is first replaced by a fresh local dict (lines 95-96), leaving
  the caller's own mapping untouched. -/
  callerArgs : Dict
  /-- The argument mappings handed to each `send_request` call, in order. -/
  requests : List Dict
  /-- The returned result element, or the raised error. -/
  outcome : Outcome α
deriving DecidableEq, Repr

/-- Model of `send_iter_request` (lines 91-135).  `apiArgs` is the caller's mapping
(`[]` plays both Python `None` and `{}`, which are equally falsy),
`maxPageLength` the page-size limit, and `responses` what successive
`send_request` calls return. -/
def sendIterRequest {α : Type} (apiArgs : Dict) (maxPageLength : Int)
    (responses : List (Except Nat (Page α))) : RunResult α :=
  { callerArgs := if apiArgs.isEmpty then apiArgs
                  else dictSet apiArgs "max-records" (Val.int maxPageLength),
    requests :=
      (sendIterCore (dictSet apiArgs "max-records" (Val.int maxPageLength))
        responses).1,
    outcome :=
      (sendIterCore (dictSet apiArgs "max-records" (Val.int maxPageLength))
        responses).2 }

/-- The item sequence of a returned result (its `attributes-list` children). -/
def resultItems {α : Type} : Outcome α → Option (List α)
  | .ok r => r.attributesList
  | _ => none

/-- The count text (the `num-records` child) of a returned result. -/
def resultCount {α : Type} : Outcome α → Option String
  | .ok r => r.numRecords
  | _ => none

/-- The merge loop, started on tag state `tag`, consumes exactly the pages
`ps` and then exits: every consumed page parses a record count, each page
but the last hands the loop a present (possibly empty) tag, and the last
page's tag is absent. -/
def consumesAll {α : Type} : Option String → List (Page α) → Bool
  | none, [] => true
  | some _, p :: ps => countOk p && consumesAll p.nextTag ps
  | _, _ => false

/-- The run of `send_iter_request` on these successive pages completes and
consumes exactly them: a single page with no tag (fast path), or a first
page with a truthy tag, a parseable count and an item container, followed
by pages chained by present tags, the last tag absent. -/
def answersRun {α : Type} : List (Page α) → Bool
  | [] => false
  | p :: ps =>
    match p.nextTag with
    | none => ps.isEmpty
    | some t =>
      !(decide (t = "")) && countOk p && p.attributesList.isSome &&
        consumesAll (some t) ps

/-- The merge loop, started on tag state `tag`, consumes all of `ps` and is
then still waiting for one more page (every consumed page parses a count
and the tag remains present throughout). -/
def reachesNext {α : Type} : Option String → List (Page α) → Bool
  | some _, [] => true
  | some _, p :: ps => countOk p && reachesNext p.nextTag ps
  | none, _ => false

/-- The request mappings the merge loop issues while consuming `ps` from
tag state `tag`: each is the original mapping with the current tag set. -/
def loopReqs {α : Type} (args : Dict) : Option String → List (Page α) → List Dict
  | some t, p :: ps => dictSet args "tag" (Val.str t) :: loopReqs args p.nextTag ps
  | _, _ => []

/-! Concrete pages used by witnesses and counterexamples.

Each group below is the input data for one claim's witness or
counterexample theorem; records are `Nat`s. -/

/-- C1 witness input, page 1: one item, continuation `t1`. -/
def w1a : Page Nat :=
  { numRecords := some "1", attributesList := some [7], nextTag := some "t1" }

/-- C1 witness input, page 2: two items, continuation `t2`. -/
def w1b : Page Nat :=
  { numRecords := some "2", attributesList := some [8, 9], nextTag := some "t2" }

/-- C1 witness input, page 3: one item, no continuation. -/
def w1c : Page Nat :=
  { numRecords := some "1", attributesList := some [10], nextTag := none }

/-- C2 witness input, page 1: declares count 2 with two items. -/
def w2a : Page Nat :=
  { numRecords := some "2", attributesList := some [1, 2], nextTag := some "t1" }

/-- C2 witness input, page 2: declares count 3 while holding one item. -/
def w2b : Page Nat :=
  { numRecords := some "3", attributesList := some [3], nextTag := some "t2" }

/-- C2 witness input, page 3: declares count 1 with one item, no tag. -/
def w2c : Page Nat :=
  { numRecords := some "1", attributesList := some [4], nextTag := none }

/-- C3 counterexample input, page 1: well-formed, continuation `a`. -/
def x3a : Page Nat :=
  { numRecords := some "1", attributesList := some [0], nextTag := some "a" }

/-- C3 counterexample input, page 2: carries continuation `b` but no item
container at all. -/
def x3b : Page Nat :=
  { numRecords := some "1", attributesList := none, nextTag := some "b" }

/-- C3 counterexample input, page 3: well-formed, no continuation. -/
def x3c : Page Nat :=
  { numRecords := some "1", attributesList := some [2], nextTag := none }

/-- C3 witness input: a first page with a continuation token and no
`num-records` child. -/
def w3a : Page Nat :=
  { numRecords := none, attributesList := some [0], nextTag := some "a" }

/-- C4 counterexample input: a first page with a continuation token, no
item container, and a non-numeric record count. -/
def x4a : Page Nat :=
  { numRecords := some "abc", attributesList := none, nextTag := some "t" }

/-- C4 witness input: a first page with a continuation token, no item
container, and a parseable record count. -/
def w4a : Page Nat :=
  { numRecords := some "5", attributesList := none, nextTag := some "t" }

/-- C5 witness input: a well-formed first page with continuation `a`. -/
def w5a : Page Nat :=
  { numRecords := some "1", attributesList := some [1], nextTag := some "a" }

/-- C5 witness input: a well-formed second page with continuation `b`. -/
def w5b : Page Nat :=
  { numRecords := some "1", attributesList := some [2], nextTag := some "b" }

/-- C6 witness input: the zero-result page — count 0, empty items, no tag. -/
def w6a : Page Nat :=
  { numRecords := some "0", attributesList := some [], nextTag := none }

/-- C7 counterexample / witness input: a single complete page. -/
def x7a : Page Nat :=
  { numRecords := some "1", attributesList := some [5], nextTag := none }

/-- C8 witness input: first page, continuation `a`. -/
def w8a : Page Nat :=
  { numRecords := some "1", attributesList := some [1], nextTag := some "a" }

/-- C8 witness input: last page, no continuation. -/
def w8b : Page Nat :=
  { numRecords := some "1", attributesList := some [2], nextTag := none }

/-- C9 witness input: a first page that promises more data. -/
def w9a : Page Nat :=
  { numRecords := some "1", attributesList := some [1], nextTag := some "a" }

/-- C9 witness input: a page that always promises yet more data. -/
def w9b : Page Nat :=
  { numRecords := some "1", attributesList := some [], nextTag := some "b" }

/-- C9 witness input: a closing page with no continuation. -/
def w9c : Page Nat :=
  { numRecords := some "1", attributesList := some [3], nextTag := none }

/-- C10 witness input: a first page whose continuation token is the empty
string. -/
def wXa : Page Nat :=
  { numRecords := some "5", attributesList := some [9], nextTag := some "" }

/-- C10 witness input: a subsequent page whose continuation token is the
empty string. -/
def wXb : Page Nat :=
  { numRecords := some "1", attributesList := some [4], nextTag := some "" }

/-- C10 witness input: a closing page. -/
def wXc : Page Nat :=
  { numRecords := some "1", attributesList := some [6], nextTag := none }

/-! Helper lemmas shared by the claim theorems. -/

theorem getRecordCount_of_countOk {α : Type} (p : Page α) (h : countOk p = true) :
    getRecordCount p = Except.ok (countVal p) := by
  unfold countOk at h
  unfold countVal
  cases hg : getRecordCount p with
  | ok n => simp
  | error e => rw [hg] at h; simp at h

theorem dictGet_dictSet_of_ne (d : Dict) (k k' : String) (v : Val) (h : k' ≠ k) :
    dictGet (dictSet d k v) k' = dictGet d k' := by
  induction d with
  | nil => simp [dictSet, dictGet, Ne.symm h]
  | cons p d ih =>
    by_cases hp : p.1 = k
    · have hp' : p.1 ≠ k' := by rw [hp]; exact Ne.symm h
      simp [dictSet, dictGet, hp, hp', Ne.symm h]
    · simp [dictSet, dictGet, hp]
      by_cases hpk : p.1 = k' <;> simp [hpk, ih]

theorem iterLoop_head_request {α : Type} (args : Dict) (r : Except Nat (Page α))
    (rest : List (Except Nat (Page α))) (t : String) (items : List α) (count : Int) :
    (iterLoop args (r :: rest) (some t) items count).1.head?
      = some (dictSet args "tag" (Val.str t)) := by
  cases r with
  | error te => simp [iterLoop]
  | ok page =>
    simp only [iterLoop]
    cases hg : getRecordCount page <;> simp [hg]

theorem iterLoop_requests_tagged {α : Type} (args : Dict)
    (responses : List (Except Nat (Page α))) :
    ∀ (tag : Option String) (items : List α) (count : Int),
      ∀ r ∈ (iterLoop args responses tag items count).1,
        ∃ t, r = dictSet args "tag" (Val.str t) := by
  induction responses with
  | nil =>
    intro tag items count r hr
    cases tag <;> simp [iterLoop] at hr
  | cons x rest ih =>
    intro tag items count r hr
    cases tag with
    | none => simp [iterLoop] at hr
    | some t =>
      cases x with
      | error te =>
        simp [iterLoop] at hr
        exact ⟨t, hr⟩
      | ok page =>
        simp only [iterLoop] at hr
        cases hg : getRecordCount page with
        | error e =>
          simp [hg] at hr
          exact ⟨t, hr⟩
        | ok c =>
          simp [hg] at hr
          rcases hr with hr | hr
          · exact ⟨t, hr⟩
          · exact ih _ _ _ r hr

theorem iterLoop_consumesAll {α : Type} (args : Dict) (ps : List (Page α)) :
    ∀ (tag : Option String) (items : List α) (count : Int),
      consumesAll tag ps = true →
      iterLoop args (ps.map Except.ok) tag items count =
        (loopReqs args tag ps,
         Outcome.ok { numRecords := some (toString (count + (ps.map countVal).sum)),
                      attributesList := some (items ++ (ps.map itemsOf).flatten),
                      nextTag := some "" }) := by
  induction ps with
  | nil =>
    intro tag items count h
    cases tag with
    | none => simp [iterLoop, loopReqs]
    | some t => simp [consumesAll] at h
  | cons p ps ih =>
    intro tag items count h
    cases tag with
    | none => simp [consumesAll] at h
    | some t =>
      simp only [consumesAll, Bool.and_eq_true] at h
      obtain ⟨h1, h2⟩ := h
      simp only [List.map_cons, iterLoop, getRecordCount_of_countOk p h1]
      rw [ih p.nextTag (items ++ itemsOf p) (count + countVal p) h2]
      simp [loopReqs, List.sum_cons, List.append_assoc, add_assoc]

theorem iterLoop_transport {α : Type} (args : Dict) (te : Nat)
    (rest : List (Except Nat (Page α))) (ps : List (Page α)) :
    ∀ (tag : Option String) (items : List α) (count : Int),
      reachesNext tag ps = true →
      (iterLoop args (ps.map Except.ok ++ Except.error te :: rest) tag items count).2
        = .err (.transport te) := by
  induction ps with
  | nil =>
    intro tag items count h
    cases tag with
    | none => simp [reachesNext] at h
    | some t => simp [iterLoop]
  | cons p ps ih =>
    intro tag items count h
    cases tag with
    | none => simp [reachesNext] at h
    | some t =>
      simp only [reachesNext, Bool.and_eq_true] at h
      obtain ⟨h1, h2⟩ := h
      simp only [List.map_cons, List.cons_append, iterLoop,
        getRecordCount_of_countOk p h1]
      exact ih p.nextTag _ _ h2

theorem iterLoop_all_tagged_hung {α : Type} (args : Dict) (ps : List (Page α)) :
    ∀ (tag : Option String) (items : List α) (count : Int),
      tag.isSome = true →
      (∀ p ∈ ps, p.nextTag.isSome = true ∧ countOk p = true) →
      (iterLoop args (ps.map Except.ok) tag items count).2 = .hung := by
  induction ps with
  | nil =>
    intro tag items count ht _
    cases tag with
    | none => simp at ht
    | some t => simp [iterLoop]
  | cons p ps ih =>
    intro tag items count ht hall
    cases tag with
    | none => simp at ht
    | some t =>
      obtain ⟨hs, hc⟩ := hall p (List.mem_cons_self _ _)
      simp only [List.map_cons, iterLoop, getRecordCount_of_countOk p hc]
      exact ih p.nextTag _ _ hs (fun q hq => hall q (List.mem_cons_of_mem _ hq))

theorem sendIterCore_requests_shape {α : Type} (args : Dict)
    (responses : List (Except Nat (Page α))) :
    (sendIterCore args responses).1.head? = some args ∧
    ∀ r ∈ (sendIterCore args responses).1.tail,
      ∃ t, r = dictSet args "tag" (Val.str t) := by
  cases responses with
  | nil => simp [sendIterCore]
  | cons x rest =>
    cases x with
    | error te => simp [sendIterCore]
    | ok first =>
      cases hpt : first.nextTag with
      | none => simp [sendIterCore, hpt]
      | some t =>
        by_cases hne : t = ""
        · simp [sendIterCore, hpt, hne]
        · cases hg : getRecordCount first with
          | error e => simp [sendIterCore, hpt, hne, hg]
          | ok c =>
            cases hal : first.attributesList with
            | none => simp [sendIterCore, hpt, hne, hg, hal]
            | some items0 =>
              refine ⟨by simp [sendIterCore, hpt, hne, hg, hal], ?_⟩
              intro r hr
              simp only [sendIterCore, hpt, hne, hg, hal] at hr
              simp at hr
              exact iterLoop_requests_tagged args rest (some t) items0 c r hr

/-! Claim theorems. -/

/-- Claim C1: for every logical query answered by a sequence of pages whose
last page carries no continuation token, `send_iter_request` returns a
result whose item sequence is exactly the concatenation of the pages' item
sequences in fetch order — page order and item order within a page are
preserved, with no sorting, deduplication or reordering. -/
theorem send_iter_request_concatenates {α : Type} (apiArgs : Dict) (mpl : Int)
    (pages : List (Page α))
    (h1 : answersRun pages = true)
    (h2 : pages.all (fun p => p.attributesList.isSome) = true) :
    resultItems (sendIterRequest apiArgs mpl (pages.map Except.ok)).outcome
      = some ((pages.map itemsOf).flatten) := by
  cases pages with
  | nil => simp [answersRun] at h1
  | cons p ps =>
    simp only [List.all_cons, Bool.and_eq_true] at h2
    obtain ⟨hp2, hps2⟩ := h2
    obtain ⟨l, hl⟩ := Option.isSome_iff_exists.mp hp2
    cases hpt : p.nextTag with
    | none =>
      simp only [answersRun, hpt] at h1
      have hps : ps = [] := by simpa using h1
      subst hps
      simp [sendIterRequest, sendIterCore, hpt, resultItems, itemsOf, hl]
    | some t =>
      simp only [answersRun, hpt, Bool.and_eq_true, Bool.not_eq_true',
        decide_eq_false_iff_not, and_assoc] at h1
      obtain ⟨hne, hco, _, hcons⟩ := h1
      simp only [sendIterRequest, sendIterCore, List.map_cons, hpt, if_neg hne,
        getRecordCount_of_countOk p hco, hl]
      rw [iterLoop_consumesAll (dictSet apiArgs "max-records" (Val.int mpl)) ps
        (some t) l (countVal p) hcons]
      simp [resultItems, itemsOf, hl]

/-- Witness for C1: a three-page run (sizes 1, 2, 1) concatenates in order. -/
theorem send_iter_request_concatenates_witness :
    resultItems (sendIterRequest ([] : Dict) 50
        ([w1a, w1b, w1c].map Except.ok)).outcome
      = some (([w1a, w1b, w1c].map itemsOf).flatten) :=
  send_iter_request_concatenates [] 50 [w1a, w1b, w1c] (by decide) (by decide)

/-- Claim C2: for every multi-page query, the total record count of the
returned result equals the sum of the record counts declared by the pages,
independent of the number of items each page actually holds: no hypothesis
ties `countVal` to the length of a page's item list, so a mismatch between
a declared count and an item count is not an error at this layer. -/
theorem send_iter_request_sums_declared_counts {α : Type} (apiArgs : Dict)
    (mpl : Int) (p : Page α) (ps : List (Page α)) (t : String)
    (h1 : answersRun (p :: ps) = true)
    (ht : p.nextTag = some t) (hne : t ≠ "") :
    resultCount (sendIterRequest apiArgs mpl ((p :: ps).map Except.ok)).outcome
      = some (toString (((p :: ps).map countVal).sum)) := by
  simp only [answersRun, ht, Bool.and_eq_true, Bool.not_eq_true',
    decide_eq_false_iff_not, and_assoc] at h1
  obtain ⟨_, hco, hsome, hcons⟩ := h1
  obtain ⟨l, hl⟩ := Option.isSome_iff_exists.mp hsome
  simp only [sendIterRequest, sendIterCore, List.map_cons, ht, if_neg hne,
    getRecordCount_of_countOk p hco, hl]
  rw [iterLoop_consumesAll (dictSet apiArgs "max-records" (Val.int mpl)) ps
    (some t) l (countVal p) hcons]
  simp [resultCount, List.sum_cons]

/-- Witness for C2: the spec's example — three pages declaring counts
2, 3 and 1 yield the count text 6, even though the middle page deliberately
holds only one item (declared count and item length disagree). -/
theorem send_iter_request_sums_declared_counts_witness :
    resultCount (sendIterRequest ([] : Dict) 50
        ([w2a, w2b, w2c].map Except.ok)).outcome
      = some (toString (([w2a, w2b, w2c].map countVal).sum)) :=
  send_iter_request_sums_declared_counts [] 50 w2a [w2b, w2c] "t1"
    (by decide) rfl (by decide)

/-- Claim C6: a first page with a falsy continuation token (absent, or the
empty string) is returned unchanged as the complete answer — its items and
count exactly as the server sent them — and the Page Fetcher is invoked
exactly once. -/
theorem fast_path_single_page {α : Type} (apiArgs : Dict) (mpl : Int)
    (first : Page α) (rest : List (Except Nat (Page α)))
    (h : first.nextTag = none ∨ first.nextTag = some "") :
    (sendIterRequest apiArgs mpl (Except.ok first :: rest)).outcome = .ok first ∧
    (sendIterRequest apiArgs mpl (Except.ok first :: rest)).requests
      = [dictSet apiArgs "max-records" (Val.int mpl)] := by
  rcases h with h | h <;> simp [sendIterRequest, sendIterCore, h]

/-- Witness for C6: the zero-result page — record count 0, empty items, no
continuation token — is returned as-is (count 0, empty items), not an
error, after a single fetch. -/
theorem fast_path_single_page_witness :
    (sendIterRequest ([] : Dict) 50
        [Except.ok ({ numRecords := some "0", attributesList := some [],
                      nextTag := none } : Page Nat)]).outcome
      = .ok { numRecords := some "0", attributesList := some [],
              nextTag := none } ∧
    (sendIterRequest ([] : Dict) 50
        [Except.ok ({ numRecords := some "0", attributesList := some [],
                      nextTag := none } : Page Nat)]).requests
      = [dictSet [] "max-records" (Val.int 50)] :=
  fast_path_single_page [] 50 _ [] (Or.inl rfl)

/-- Claim C5: a transport error from `send_request` on any round-trip —
the first fetch or any page fetch inside the loop — aborts the whole call,
propagates the transport error kind unchanged, and returns no items: the
result carries no item sequence, so items accumulated from earlier pages
are never handed to the caller. -/
theorem transport_error_aborts_whole_call {α : Type} (apiArgs : Dict)
    (mpl : Int) :
    (∀ (te : Nat) (rest : List (Except Nat (Page α))),
      (sendIterRequest apiArgs mpl (Except.error te :: rest)).outcome
        = .err (.transport te)) ∧
    (∀ (first : Page α) (ps : List (Page α)) (te : Nat)
        (rest : List (Except Nat (Page α))) (t : String),
      first.nextTag = some t → t ≠ "" → countOk first = true →
      first.attributesList.isSome = true → reachesNext (some t) ps = true →
      (sendIterRequest apiArgs mpl
          (Except.ok first :: (ps.map Except.ok ++ Except.error te :: rest))).outcome
        = .err (.transport te) ∧
      resultItems (sendIterRequest apiArgs mpl
          (Except.ok first :: (ps.map Except.ok ++ Except.error te :: rest))).outcome
        = none) := by
  constructor
  · intro te rest
    simp [sendIterRequest, sendIterCore]
  · intro first ps te rest t ht hne hco hsome hreach
    obtain ⟨l, hl⟩ := Option.isSome_iff_exists.mp hsome
    have hout : (sendIterRequest apiArgs mpl
        (Except.ok first :: (ps.map Except.ok ++ Except.error te :: rest))).outcome
        = .err (.transport te) := by
      simp only [sendIterRequest, sendIterCore, ht, if_neg hne,
        getRecordCount_of_countOk first hco, hl]
      exact iterLoop_transport _ te rest ps (some t) l (countVal first) hreach
    exact ⟨hout, by rw [hout]; rfl⟩

/-- Witness for C5: a transport failure (code 7) on the third round-trip of
a run whose first two pages were fine aborts with that error and yields no
items. -/
theorem transport_error_aborts_whole_call_witness :
    (sendIterRequest ([] : Dict) 50
        (Except.ok w5a :: ([w5b].map Except.ok ++ Except.error 7 :: []))).outcome
      = .err (.transport 7) ∧
    resultItems (sendIterRequest ([] : Dict) 50
        (Except.ok w5a :: ([w5b].map Except.ok ++ Except.error 7 :: []))).outcome
      = none :=
  (transport_error_aborts_whole_call [] 50).2 w5a [w5b] 7 [] "a"
    rfl (by decide) (by decide) (by decide) (by decide)

/-- Counterexample to C7 as stated: `send_iter_request` writes the
page-size limit directly into the caller's mapping — after a call made
with the one-entry mapping `query ↦ q`, that mapping has gained the
`max-records` key, so it is not unchanged. -/
theorem caller_args_mutation_counterexample :
    (sendIterRequest [("query", Val.str "q")] 50
        [Except.ok x7a]).callerArgs
      = [("query", Val.str "q"), ("max-records", Val.int 50)] ∧
    (sendIterRequest [("query", Val.str "q")] 50
        [Except.ok x7a]).callerArgs
      ≠ [("query", Val.str "q")] :=
  ⟨rfl, by decide⟩

/-- Amended C7: the limit is not injected into a copy — line 98 writes
`max-records` into the very mapping the caller passed whenever that mapping
is non-empty (an empty or absent mapping is replaced by a fresh local dict
and the caller's mapping stays empty).  That is the only mutation: every
key other than `max-records` — in particular any tag key — reads the same
after the call, because per-page requests are built from deep copies. -/
theorem caller_args_gains_only_limit {α : Type} (apiArgs : Dict) (mpl : Int)
    (responses : List (Except Nat (Page α))) :
    (apiArgs = [] → (sendIterRequest apiArgs mpl responses).callerArgs = []) ∧
    (apiArgs ≠ [] → (sendIterRequest apiArgs mpl responses).callerArgs
        = dictSet apiArgs "max-records" (Val.int mpl)) ∧
    (∀ k, k ≠ "max-records" →
      dictGet (sendIterRequest apiArgs mpl responses).callerArgs k
        = dictGet apiArgs k) := by
  refine ⟨?_, ?_, ?_⟩
  · intro h
    simp [sendIterRequest, h]
  · intro h
    simp [sendIterRequest, List.isEmpty_eq_true, h]
  · intro k hk
    by_cases h : apiArgs.isEmpty
    · simp [sendIterRequest, h]
    · simp only [sendIterRequest, h, if_neg]
      exact dictGet_dictSet_of_ne apiArgs "max-records" k (Val.int mpl) hk

/-- Witness for amended C7: with the mapping `query ↦ q`, after the call
the mapping is the original plus `max-records`, and the `query` and `tag`
keys read as before. -/
theorem caller_args_gains_only_limit_witness :
    ([("query", Val.str "q")] ≠ ([] : Dict) →
      (sendIterRequest [("query", Val.str "q")] 50
          [Except.ok x7a]).callerArgs
        = dictSet [("query", Val.str "q")] "max-records" (Val.int 50)) ∧
    ("tag" ≠ "max-records" →
      dictGet (sendIterRequest [("query", Val.str "q")] 50
          [Except.ok x7a]).callerArgs "tag"
        = dictGet [("query", Val.str "q")] "tag") :=
  ⟨fun h => (caller_args_gains_only_limit [("query", Val.str "q")] 50
      [Except.ok x7a]).2.1 h,
   fun h => (caller_args_gains_only_limit [("query", Val.str "q")] 50
      [Except.ok x7a]).2.2 "tag" h⟩

/-- Claim C8: every request after the first is built fresh from the
original argument set (the caller's arguments plus the injected limit)
with the current continuation token written into the reserved tag key —
never by mutating the previous page's request — so each loop request
equals the original mapping plus a tag, the token is replaced rather than
accumulated, and any two page requests agree on every key but the tag. -/
theorem loop_requests_fresh_from_original {α : Type} (apiArgs : Dict)
    (mpl : Int) (responses : List (Except Nat (Page α))) :
    (sendIterRequest apiArgs mpl responses).requests.head?
      = some (dictSet apiArgs "max-records" (Val.int mpl)) ∧
    (∀ r ∈ (sendIterRequest apiArgs mpl responses).requests.tail,
      ∃ t, r = dictSet (dictSet apiArgs "max-records" (Val.int mpl)) "tag"
        (Val.str t)) ∧
    (∀ r ∈ (sendIterRequest apiArgs mpl responses).requests.tail,
      ∀ k, k ≠ "tag" →
        dictGet r k = dictGet (dictSet apiArgs "max-records" (Val.int mpl)) k) := by
  obtain ⟨hhead, htail⟩ := sendIterCore_requests_shape
    (dictSet apiArgs "max-records" (Val.int mpl)) responses
  refine ⟨hhead, htail, ?_⟩
  intro r hr k hk
  obtain ⟨t, rfl⟩ := htail r hr
  exact dictGet_dictSet_of_ne _ "tag" k (Val.str t) hk

/-- Witness for C8: in a two-page run, the first request is the original
mapping with the limit, the second is that same mapping plus the tag `a`,
and the second request agrees with the first on the limit key. -/
theorem loop_requests_fresh_from_original_witness :
    (sendIterRequest ([] : Dict) 50
        ([w8a, w8b].map Except.ok)).requests.head?
      = some (dictSet [] "max-records" (Val.int 50)) ∧
    (dictSet (dictSet [] "max-records" (Val.int 50)) "tag" (Val.str "a"))
      ∈ (sendIterRequest ([] : Dict) 50
        ([w8a, w8b].map Except.ok)).requests.tail ∧
    (∀ r ∈ (sendIterRequest ([] : Dict) 50
        ([w8a, w8b].map Except.ok)).requests.tail,
      ∃ t, r = dictSet (dictSet [] "max-records" (Val.int 50)) "tag"
        (Val.str t)) :=
  ⟨(loop_requests_fresh_from_original [] 50 ([w8a, w8b].map Except.ok)).1,
   by decide,
   (loop_requests_fresh_from_original [] 50 ([w8a, w8b].map Except.ok)).2.1⟩

/-- Claim C9: the call returns exactly when the endpoint eventually hands
back a page without a continuation token.  First conjunct: on any
successful chain whose last page has no token, the outcome is never
`hung`.  Second conjunct: the engine has no round-trip bound and no cycle
detection — against a fetcher whose every page carries a token (and a
parseable count), the call is still looping after the response stream of
any finite length is exhausted, i.e. it runs forever. -/
theorem termination_conditions {α : Type} (apiArgs : Dict) (mpl : Int) :
    (∀ pages : List (Page α), answersRun pages = true →
      (sendIterRequest apiArgs mpl (pages.map Except.ok)).outcome
        ≠ Outcome.hung) ∧
    (∀ (first : Page α) (pages : List (Page α)) (t : String),
      first.nextTag = some t → t ≠ "" → countOk first = true →
      first.attributesList.isSome = true →
      (∀ p ∈ pages, p.nextTag.isSome = true ∧ countOk p = true) →
      (sendIterRequest apiArgs mpl
          (Except.ok first :: pages.map Except.ok)).outcome = Outcome.hung) := by
  constructor
  · intro pages h1
    cases pages with
    | nil => simp [answersRun] at h1
    | cons p ps =>
      cases hpt : p.nextTag with
      | none =>
        simp only [answersRun, hpt] at h1
        have hps : ps = [] := by simpa using h1
        subst hps
        simp [sendIterRequest, sendIterCore, hpt]
      | some t =>
        simp only [answersRun, hpt, Bool.and_eq_true, Bool.not_eq_true',
          decide_eq_false_iff_not, and_assoc] at h1
        obtain ⟨hne, hco, hsome, hcons⟩ := h1
        obtain ⟨l, hl⟩ := Option.isSome_iff_exists.mp hsome
        simp only [sendIterRequest, sendIterCore, List.map_cons, hpt,
          if_neg hne, getRecordCount_of_countOk p hco, hl]
        rw [iterLoop_consumesAll (dictSet apiArgs "max-records" (Val.int mpl))
          ps (some t) l (countVal p) hcons]
        simp
  · intro first pages t ht hne hco hsome hall
    obtain ⟨l, hl⟩ := Option.isSome_iff_exists.mp hsome
    simp only [sendIterRequest, sendIterCore, ht, if_neg hne,
      getRecordCount_of_countOk first hco, hl]
    exact iterLoop_all_tagged_hung _ pages (some t) l (countVal first) rfl hall

/-- Witness for C9: a two-page chain closing with a token-less page
returns (is not hung), while a fetcher whose pages always carry token `b`
leaves the call still running after its finite response stream is spent. -/
theorem termination_conditions_witness :
    (sendIterRequest ([] : Dict) 50
        ([w9a, w9c].map Except.ok)).outcome ≠ Outcome.hung ∧
    (sendIterRequest ([] : Dict) 50
        (Except.ok w9a :: [w9b, w9b, w9b].map Except.ok)).outcome
      = Outcome.hung :=
  ⟨(termination_conditions [] 50).1 [w9a, w9c] (by decide),
   (termination_conditions [] 50).2 w9a [w9b, w9b, w9b] "a" rfl (by decide)
     (by decide) (by decide) (by decide)⟩

/-- Claim C10: the end-of-listing test is asymmetric.  On the first page a
falsy token — and the empty string in particular — takes the fast path
(first conjunct).  Inside the loop, only an absent token (`None`) ends
iteration, immediately and with no further request (second conjunct),
while a subsequent page whose token is present but empty keeps the loop
going: the very next request is issued with an empty-string tag (third
conjunct). -/
theorem next_tag_asymmetry {α : Type} (apiArgs : Dict) (mpl : Int) :
    (∀ (first : Page α) (rest : List (Except Nat (Page α))),
      first.nextTag = some "" →
      (sendIterRequest apiArgs mpl (Except.ok first :: rest)).outcome
        = .ok first ∧
      (sendIterRequest apiArgs mpl (Except.ok first :: rest)).requests.length
        = 1) ∧
    (∀ (args : Dict) (responses : List (Except Nat (Page α)))
        (items : List α) (count : Int),
      iterLoop args responses none items count
        = ([], .ok { numRecords := some (toString count),
                     attributesList := some items, nextTag := some "" })) ∧
    (∀ (args : Dict) (p : Page α) (r : Except Nat (Page α))
        (rest : List (Except Nat (Page α))) (t : String)
        (items : List α) (count : Int),
      countOk p = true → p.nextTag = some "" →
      ((iterLoop args (Except.ok p :: r :: rest) (some t) items count).1).tail.head?
        = some (dictSet args "tag" (Val.str ""))) := by
  refine ⟨?_, ?_, ?_⟩
  · intro first rest h
    simp [sendIterRequest, sendIterCore, h]
  · intro args responses items count
    cases responses <;> simp [iterLoop]
  · intro args p r rest t items count hc hpt
    simp only [iterLoop, getRecordCount_of_countOk p hc, List.tail_cons]
    rw [hpt]
    exact iterLoop_head_request args r rest "" _ _

/-- Witness for C10: a first page with token `""` is returned at once after
one fetch, while a mid-loop page with token `""` makes the loop issue its
next request with an empty-string tag. -/
theorem next_tag_asymmetry_witness :
    ((sendIterRequest ([] : Dict) 50 [Except.ok wXa]).outcome = .ok wXa ∧
     (sendIterRequest ([] : Dict) 50 [Except.ok wXa]).requests.length = 1) ∧
    ((iterLoop [("max-records", Val.int 50)]
        [Except.ok wXb, Except.ok wXc] (some "t0") ([] : List Nat) 0).1.tail.head?
      = some (dictSet [("max-records", Val.int 50)] "tag" (Val.str ""))) :=
  ⟨(next_tag_asymmetry [] 50).1 wXa [] rfl,
   (next_tag_asymmetry [] 50).2.2 [("max-records", Val.int 50)] wXb
     (Except.ok wXc) [] "t0" [] 0 (by decide) rfl⟩

/-- Counterexample to C3 as stated: a subsequent page that carries a
continuation token (`b`) but no item container does not fail the call —
the run completes successfully, merging the remaining pages, so the claim
that every such page raises MalformedPage is false. -/
theorem malformed_page_claim_counterexample :
    (sendIterRequest ([] : Dict) 50
        [Except.ok x3a, Except.ok x3b, Except.ok x3c]).outcome
      = Outcome.ok { numRecords := some "3",
                     attributesList := some [0, 2],
                     nextTag := some "" } := rfl

/-- Amended C3: on the multi-page path, a page — first or subsequent —
whose record-count field is missing fails the whole call with the
MalformedPage kind (`NetAppDriverException`) and no partial data; but a
record count that is present and non-numeric fails the call with a
`ValueError`, a different error kind (only `TypeError` is caught); a
record count parsing as a negative integer is accepted; and a continuation
token with no item container is an error only on the first page — a
subsequent such page is tolerated and contributes no items. -/
theorem record_count_error_handling {α : Type} (apiArgs : Dict) (mpl : Int) :
    (∀ (first : Page α) (rest : List (Except Nat (Page α))) (t : String),
      first.nextTag = some t → t ≠ "" → first.numRecords = none →
      (sendIterRequest apiArgs mpl (Except.ok first :: rest)).outcome
        = .err .malformedCount) ∧
    (∀ (args : Dict) (p : Page α) (rest : List (Except Nat (Page α)))
        (t : String) (items : List α) (count : Int),
      p.numRecords = none →
      (iterLoop args (Except.ok p :: rest) (some t) items count).2
        = .err .malformedCount) ∧
    (∀ (args : Dict) (p : Page α) (rest : List (Except Nat (Page α)))
        (t : String) (items : List α) (count : Int) (s : String),
      p.numRecords = some s → pyInt s = none →
      (iterLoop args (Except.ok p :: rest) (some t) items count).2
        = .err .valueError) ∧
    isNetAppDriverException .malformedCount = true ∧
    isNetAppDriverException .valueError = false ∧
    countOk ({ numRecords := some "-3", attributesList := none,
               nextTag := none } : Page α) = true ∧
    (∀ (args : Dict) (p : Page α) (rest : List (Except Nat (Page α)))
        (t : String) (items : List α) (count : Int),
      countOk p = true → p.attributesList = none →
      (iterLoop args (Except.ok p :: rest) (some t) items count).2
        = (iterLoop args rest p.nextTag items (count + countVal p)).2) := by
  refine ⟨?_, ?_, ?_, rfl, rfl, rfl, ?_⟩
  · intro first rest t ht hne hnum
    simp [sendIterRequest, sendIterCore, ht, hne, getRecordCount, hnum]
  · intro args p rest t items count hnum
    simp [iterLoop, getRecordCount, hnum]
  · intro args p rest t items count s hs hpy
    simp [iterLoop, getRecordCount, hs, hpy]
  · intro args p rest t items count hc hattr
    simp [iterLoop, getRecordCount_of_countOk p hc, itemsOf, hattr]

/-- Witness for amended C3: a first page promising more data but carrying
no `num-records` child aborts the call with the MalformedPage kind. -/
theorem record_count_error_handling_witness :
    (sendIterRequest ([] : Dict) 50 [Except.ok w3a]).outcome
      = .err .malformedCount :=
  (record_count_error_handling [] 50).1 w3a [] "a" rfl (by decide) rfl

/-- Counterexample to C4 as stated: a first page with a continuation token
and no item container whose record count is the non-numeric text `abc`
fails with `ValueError`, which is not the MalformedPage kind
(`NetAppDriverException`) the claim promises. -/
theorem malformed_first_page_counterexample :
    (sendIterRequest ([] : Dict) 50 [Except.ok x4a]).outcome
      = Outcome.err IterError.valueError ∧
    isNetAppDriverException IterError.valueError = false :=
  ⟨rfl, rfl⟩

/-- Amended C4: a first page that declares a (truthy) continuation token
but carries no item container makes `send_iter_request` fail immediately,
with the Page Fetcher invoked exactly once; the failure is the
MalformedPage kind (`NetAppDriverException`) when the record-count field
is missing or parses — the record count is checked first — but is a
`ValueError` when the record count is present and non-numeric. -/
theorem malformed_first_page_fails_one_fetch {α : Type} (apiArgs : Dict)
    (mpl : Int) (first : Page α) (rest : List (Except Nat (Page α)))
    (t : String) (ht : first.nextTag = some t) (hne : t ≠ "")
    (hattr : first.attributesList = none) :
    (sendIterRequest apiArgs mpl (Except.ok first :: rest)).requests.length
      = 1 ∧
    (first.numRecords = none →
      (sendIterRequest apiArgs mpl (Except.ok first :: rest)).outcome
        = .err .malformedCount) ∧
    (countOk first = true →
      (sendIterRequest apiArgs mpl (Except.ok first :: rest)).outcome
        = .err .missingAttributesList) ∧
    (∀ s, first.numRecords = some s → pyInt s = none →
      (sendIterRequest apiArgs mpl (Except.ok first :: rest)).outcome
        = .err .valueError) ∧
    isNetAppDriverException .malformedCount = true ∧
    isNetAppDriverException .missingAttributesList = true := by
  refine ⟨?_, ?_, ?_, ?_, rfl, rfl⟩
  · cases hg : getRecordCount first <;>
      simp [sendIterRequest, sendIterCore, ht, hne, hg, hattr]
  · intro h
    simp [sendIterRequest, sendIterCore, ht, hne, getRecordCount, h]
  · intro h
    simp [sendIterRequest, sendIterCore, ht, hne,
      getRecordCount_of_countOk first h, hattr]
  · intro s hs hpy
    simp [sendIterRequest, sendIterCore, ht, hne, getRecordCount, hs, hpy]

/-- Witness for amended C4: a first page with token `t`, a parseable count
and no item container fails with the missing-attributes-list
`NetAppDriverException` after exactly one fetch. -/
theorem malformed_first_page_fails_one_fetch_witness :
    (sendIterRequest ([] : Dict) 50 [Except.ok w4a]).requests.length = 1 ∧
    (countOk w4a = true →
      (sendIterRequest ([] : Dict) 50 [Except.ok w4a]).outcome
        = .err .missingAttributesList) :=
  ⟨(malformed_first_page_fails_one_fetch [] 50 w4a [] "t" rfl (by decide)
      rfl).1,
   (malformed_first_page_fails_one_fetch [] 50 w4a [] "t" rfl (by decide)
      rfl).2.2.1⟩

end NetAppIter
